import Mathlib

/-!
Shallow embedding of the wk7_api_project backend (src/app.py): the User and
Book rows, the token lifecycle (get_token / revoke_token / check_token), the
auth helpers (verify_password, require_admin) and the route handlers the
claims mention.  Timestamps are modelled as integers (seconds); the relational
store is a list of rows; Python runtime errors (TypeError on a None
comparison, KeyError on a missing dict key, AttributeError on a missing
attribute) are explicit `Except` errors.
-/

namespace App

/-- Python runtime outcomes that the handlers can surface: an HTTP abort, a
TypeError (e.g. comparing None with a datetime), a KeyError from a dict
lookup, or an AttributeError from a missing object attribute. -/
inductive Err where
  | http (code : Nat)
  | typeError
  | keyError (k : String)
  | attributeError (a : String)
deriving DecidableEq

/-- A JSON value as it appears in request bodies and responses. -/
inductive Val where
  | s (v : String)
  | i (v : Int)
  | b (v : Bool)
  | nullv
deriving DecidableEq

def Val.asStr : Val → String
  | .s v => v
  | _ => ""

def Val.asInt : Val → Int
  | .i v => v
  | _ => 0

/-- The User row of src/app.py (columns user_id, first_name, last_name,
email, password, created_on, is_admin, token, token_exp).  `icon` is not a
column: it only exists as an instance attribute after `from_dict` set it,
hence it is an `Option` whose `none` means "attribute absent". -/
structure UserR where
  user_id : Int
  first_name : String
  last_name : String
  email : String
  password : String
  created_on : Int
  is_admin : Bool
  token : Option String
  token_exp : Option Int
  icon : Option String
deriving DecidableEq

/-- The Book row of src/app.py (columns book_id, title, author, pages,
summary, image). -/
structure Book where
  book_id : Int
  title : String
  author : String
  pages : Int
  summary : String
  image : String
deriving DecidableEq

def blankUser : UserR :=
  { user_id := 0, first_name := "", last_name := "", email := "",
    password := "", created_on := 0, is_admin := false,
    token := none, token_exp := none, icon := none }

/-- The state written by the issuing branch of `get_token`: a fresh token and
expiry now + L are stored on the user (app.py lines 43-45). -/
def issueFresh (now L : Int) (fresh : String) (u : UserR) : UserR :=
  { u with token := some fresh, token_exp := some (now + L) }

/-- User.get_token (app.py lines 39-46).  `fresh` stands for the value
secrets.token_urlsafe(32) would produce on this call; the updated user row is
returned alongside the token (`save` persists it).  Python truthiness of
`self.token` is: None and "" are falsy.  When the token is truthy but
token_exp is None, the comparison `self.token_exp > current_time + ...`
raises TypeError. -/
def get_token (now : Int) (fresh : String) (L : Int) (u : UserR) :
    Except Err (String × UserR) :=
  match u.token with
  | none => Except.ok (fresh, issueFresh now L fresh u)
  | some t =>
    if t = "" then Except.ok (fresh, issueFresh now L fresh u)
    else
      match u.token_exp with
      | none => Except.error Err.typeError
      | some e =>
        if now + 60 < e then Except.ok (t, u)
        else Except.ok (fresh, issueFresh now L fresh u)

/-- User.revoke_token (app.py lines 48-49): token_exp := utcnow() - 61s; the
token string itself is untouched. -/
def revoke_token (now : Int) (u : UserR) : UserR :=
  { u with token_exp := some (now - 61) }

/-- User.check_token (app.py lines 51-56): look the user up by exact token
match; `if not user or user.token_exp < dt.utcnow(): return None`.  A found
user whose token_exp is None makes the `<` comparison raise TypeError. -/
def check_token (now : Int) (tok : String) (db : List UserR) :
    Except Err (Option UserR) :=
  match db.find? (fun u => decide (u.token = some tok)) with
  | none => Except.ok none
  | some u =>
    match u.token_exp with
    | none => Except.error Err.typeError
    | some e => if e < now then Except.ok none else Except.ok (some u)

/-- Modelled from the spec: `hash_password` is called in src/app.py (line 70)
but defined nowhere under src/.  The spec only requires a one-way hash of the
plaintext ("password (stored as a one-way hash, never plaintext)"), so it is
modelled as an injective tagging of the plaintext. -/
def hash_password (p : String) : String :=
  String.append "#hashed#" p

/-- Modelled from the spec: `check_hashed_password` is called in src/app.py
(line 136) but defined nowhere under src/.  Per the spec it "compares the
plaintext password against the stored hash using the store's one-way hash
comparison". -/
def check_hashed_password (stored plain : String) : Bool :=
  decide (stored = hash_password plain)

/-- verify_password (app.py lines 130-136): look the user up by email; return
False when absent, else the result of the hash comparison. -/
def verify_password (db : List UserR) (email pw : String) : Bool :=
  match db.find? (fun u => decide (u.email = email)) with
  | none => false
  | some u => check_hashed_password u.password pw

/-- require_admin (app.py lines 142-149): `if not g.current_user.is_admin:
abort(403) else: return f(*args, **kwargs)`. -/
def require_admin {α β : Type} (u : UserR) (f : α → β) (x : α) :
    Except Err β :=
  if u.is_admin then Except.ok (f x) else Except.error (Err.http 403)

/-- Lookup of a key in a parsed JSON body, as `key in d` / `d.get` would see
it. -/
def jsonGet (body : List (String × Val)) (k : String) : Option Val :=
  (body.find? (fun p => decide (p.fst = k))).map Prod.snd

/-- User.from_dict (app.py lines 66-71): reads first_name, last_name, email,
password (hashed before storing) and icon from the body, in that order, each
via a raising dict lookup (KeyError on the first absent key). -/
def UserR.from_dict (u : UserR) (data : List (String × Val)) :
    Except Err UserR :=
  match jsonGet data "first_name" with
  | none => Except.error (Err.keyError "first_name")
  | some v1 =>
    match jsonGet data "last_name" with
    | none => Except.error (Err.keyError "last_name")
    | some v2 =>
      match jsonGet data "email" with
      | none => Except.error (Err.keyError "email")
      | some v3 =>
        match jsonGet data "password" with
        | none => Except.error (Err.keyError "password")
        | some v4 =>
          match jsonGet data "icon" with
          | none => Except.error (Err.keyError "icon")
          | some v5 =>
            Except.ok { u with
              first_name := v1.asStr, last_name := v2.asStr,
              email := v3.asStr, password := hash_password v4.asStr,
              icon := some v5.asStr }

/-- Python attribute access on a User row: the mapped columns exist, `icon`
only when previously assigned, anything else (notably `id` — the primary-key
column is named user_id) raises AttributeError. -/
def UserR.pyattr (u : UserR) : String → Except Err Val
  | "user_id" => Except.ok (Val.i u.user_id)
  | "first_name" => Except.ok (Val.s u.first_name)
  | "last_name" => Except.ok (Val.s u.last_name)
  | "email" => Except.ok (Val.s u.email)
  | "password" => Except.ok (Val.s u.password)
  | "created_on" => Except.ok (Val.i u.created_on)
  | "is_admin" => Except.ok (Val.b u.is_admin)
  | "token" =>
    Except.ok (match u.token with | none => Val.nullv | some t => Val.s t)
  | "icon" =>
    match u.icon with
    | none => Except.error (Err.attributeError "icon")
    | some s => Except.ok (Val.s s)
  | a => Except.error (Err.attributeError a)

/-- User.to_dict (app.py lines 77-87): builds the profile dict in source
order, starting with `self.id` — an attribute the model does not define (the
column is user_id). -/
def UserR.to_dict (u : UserR) : Except Err (List (String × Val)) := do
  let v1 ← u.pyattr "id"
  let v2 ← u.pyattr "first_name"
  let v3 ← u.pyattr "last_name"
  let v4 ← u.pyattr "email"
  let v5 ← u.pyattr "created_on"
  let v6 ← u.pyattr "icon"
  let v7 ← u.pyattr "is_admin"
  let v8 ← u.pyattr "token"
  Except.ok [("id", v1), ("first_name", v2), ("last_name", v3),
    ("email", v4), ("created_on", v5), ("icon", v6), ("is_admin", v7),
    ("token", v8)]

/-- get_login (app.py lines 155-160): the basic-auth-resolved user issues or
reuses a token, then the response body {"token": token, **user.to_dict()} is
built. -/
def get_login (now : Int) (fresh : String) (u : UserR) :
    Except Err (List (String × Val) × UserR) := do
  let r ← get_token now fresh 86400 u
  let d ← UserR.to_dict r.snd
  Except.ok (("token", Val.s r.fst) :: d, r.snd)

/-- The six keys register_user requires (app.py line 179). -/
def userRequiredKeys : List String :=
  ["first_name", "last_name", "email", "password", "created_on", "is_admin"]

/-- register_user (app.py lines 174-184): abort(404) when a required key is
absent; otherwise User(); from_dict; save; then the success f-string reads
new_user.id, an attribute User does not define. -/
def register_user (db : List UserR) (body : List (String × Val)) :
    List UserR × Except Err String :=
  if userRequiredKeys.all (fun k => (jsonGet body k).isSome) then
    match UserR.from_dict { blankUser with user_id := (db.length : Int) + 1 } body with
    | Except.error e => (db, Except.error e)
    | Except.ok u2 => (db ++ [u2], Except.error (Err.attributeError "id"))
  else (db, Except.error (Err.http 404))

/-- put_user (app.py lines 186-196): no key validation; User.query.get(id)
then from_dict (raising KeyError on a missing key), save, and a success
f-string that reads user.id — an attribute User does not define. -/
def put_user (db : List UserR) (i : Int) (body : List (String × Val)) :
    List UserR × Except Err String :=
  match db.find? (fun u => decide (u.user_id = i)) with
  | none => (db, Except.error (Err.http 404))
  | some u =>
    match UserR.from_dict u body with
    | Except.error e => (db, Except.error e)
    | Except.ok u2 =>
      (db.map (fun x => if x.user_id = i then u2 else x),
       Except.error (Err.attributeError "id"))

/-- Book.to_dict (app.py lines 111-119); note the literal key "pages " with a
trailing space in the source. -/
def Book.to_dict (b : Book) : List (String × Val) :=
  [("book_id", Val.i b.book_id), ("title", Val.s b.title),
   ("author", Val.s b.author), ("pages ", Val.i b.pages),
   ("summary", Val.s b.summary), ("image", Val.s b.image)]

/-- get_book_by_id (app.py lines 225-232): 404 when absent, else the
to_dict body. -/
def get_book_by_id (db : List Book) (i : Int) :
    Except Err (List (String × Val)) :=
  match db.find? (fun b => decide (b.book_id = i)) with
  | none => Except.error (Err.http 404)
  | some b => Except.ok (Book.to_dict b)

/-- The five keys post_book requires (app.py line 246). -/
def bookRequiredKeys : List String :=
  ["title", "author", "pages", "summary", "image"]

/-- Modelled from the spec: `Book.from_dict` is called by post_book and
put_book but defined nowhere under src/.  Per the spec, PUT "overwrites all
fields" from the body; mirroring User.from_dict, each field is read with a
raising dict lookup. -/
def Book.from_dict (b : Book) (data : List (String × Val)) :
    Except Err Book :=
  match jsonGet data "title" with
  | none => Except.error (Err.keyError "title")
  | some v1 =>
    match jsonGet data "author" with
    | none => Except.error (Err.keyError "author")
    | some v2 =>
      match jsonGet data "pages" with
      | none => Except.error (Err.keyError "pages")
      | some v3 =>
        match jsonGet data "summary" with
        | none => Except.error (Err.keyError "summary")
        | some v4 =>
          match jsonGet data "image" with
          | none => Except.error (Err.keyError "image")
          | some v5 =>
            Except.ok { b with
              title := v1.asStr, author := v2.asStr, pages := v3.asInt,
              summary := v4.asStr, image := v5.asStr }

/-- post_book (app.py lines 241-251): abort(404) when a required key is
absent; otherwise `book.from_dict()` is invoked WITHOUT its data argument
(and with no default), so the parsed body is never stored and the call
raises; no book row is ever added. -/
def post_book (db : List Book) (body : List (String × Val)) :
    List Book × Except Err String :=
  if bookRequiredKeys.all (fun k => (jsonGet body k).isSome) then
    (db, Except.error Err.typeError)
  else (db, Except.error (Err.http 404))

/-- put_book (app.py lines 255-265): 404 when the id is absent; otherwise
from_dict, save, and then the success line evaluates
`f"Book {book.title} with ID {book.id} ..."` — book.id is an attribute Book
does not define (the column is book_id), so the line raises before its
make_response result could be discarded.  The second component models the
view function's outcome: `Except.ok none` would be "returned None / no
response value". -/
def put_book (db : List Book) (i : Int) (body : List (String × Val)) :
    List Book × Except Err (Option String) :=
  match db.find? (fun b => decide (b.book_id = i)) with
  | none => (db, Except.error (Err.http 404))
  | some b =>
    match Book.from_dict b body with
    | Except.error e => (db, Except.error e)
    | Except.ok b2 =>
      (db.map (fun x => if x.book_id = i then b2 else x),
       Except.error (Err.attributeError "id"))

/-! ## Theorems -/

def uC1 : UserR :=
  { blankUser with user_id := 1, token := some "T", token_exp := some 100 }

def uC1w : UserR :=
  { blankUser with user_id := 2, token := some "TW", token_exp := some 50 }

/-- C1 (amended): check_token returns not-found whenever no user row holds
the given token, and whenever the holder's token_exp is strictly less than
the current time — so in particular once the current time strictly passes the
token's expiry, resolution fails.  (A token whose expiry equals the current
instant is, however, still accepted; see the counterexample.) -/
theorem resolve_expired_not_found :
    (∀ (now : Int) (tok : String) (db : List UserR),
      db.find? (fun u => decide (u.token = some tok)) = none →
      check_token now tok db = Except.ok none)
    ∧ (∀ (now : Int) (tok : String) (db : List UserR) (u : UserR) (e : Int),
      db.find? (fun v => decide (v.token = some tok)) = some u →
      u.token_exp = some e → e < now →
      check_token now tok db = Except.ok none) := by
  constructor
  · intro now tok db h
    simp [check_token, h]
  · intro now tok db u e hf he hlt
    simp [check_token, hf, he, hlt]

/-- C1 witness: a token that expired at time 50 resolves to not-found at
time 100. -/
theorem resolve_expired_not_found_witness :
    check_token 100 "TW" [uC1w] = Except.ok none :=
  resolve_expired_not_found.2 100 "TW" [uC1w] uC1w 50 rfl rfl (by norm_num)

/-- C1 counterexample: at the instant now = token_exp = 100 the expiry is not
strictly greater than the current time, yet check_token still returns the
user rather than not-found (the code tests token_exp < now, not ≤). -/
theorem resolve_boundary_cex :
    uC1.token_exp = some 100 ∧ ¬ ((100 : Int) > 100)
    ∧ check_token 100 "T" [uC1] = Except.ok (some uC1) :=
  ⟨rfl, by omega, rfl⟩

def uC2a : UserR := { blankUser with user_id := 1, is_admin := true }

def uC2n : UserR := { blankUser with user_id := 2, is_admin := false }

/-- C2: require_admin rejects a non-admin identity with 403 before the
wrapped handler runs (for every handler and every argument, i.e. regardless
of the request body), and passes an admin identity through unchanged. -/
theorem require_admin_gate (α β : Type) (u : UserR) (f : α → β) (x : α) :
    (u.is_admin = false → require_admin u f x = Except.error (Err.http 403))
    ∧ (u.is_admin = true → require_admin u f x = Except.ok (f x)) := by
  constructor
  · intro h; simp [require_admin, h]
  · intro h; simp [require_admin, h]

/-- C2 witness: a concrete non-admin is rejected with 403; a concrete admin
reaches the handler. -/
theorem require_admin_gate_witness :
    require_admin uC2n (fun n : Nat => n + 1) 0 = Except.error (Err.http 403)
    ∧ require_admin uC2a (fun n : Nat => n + 1) 0 = Except.ok 1 :=
  ⟨(require_admin_gate Nat Nat uC2n (fun n => n + 1) 0).1 rfl,
   (require_admin_gate Nat Nat uC2a (fun n => n + 1) 0).2 rfl⟩

def uC3 : UserR :=
  { blankUser with
    user_id := 1, email := "a@b.com", password := hash_password "pw" }

/-- C3: verify_password never succeeds when no row matches the email, and
never succeeds when a row matches but the plaintext does not hash to the
stored value. -/
theorem verify_password_fail_closed (db : List UserR) (email pw : String) :
    (db.find? (fun u => decide (u.email = email)) = none →
      verify_password db email pw = false)
    ∧ (∀ u, db.find? (fun v => decide (v.email = email)) = some u →
      u.password ≠ hash_password pw → verify_password db email pw = false) := by
  constructor
  · intro h; simp [verify_password, h]
  · intro u hf hne
    simp [verify_password, hf, check_hashed_password, hne]

/-- C3 witness: an unknown email fails, and a wrong password against a stored
row fails. -/
theorem verify_password_fail_closed_witness :
    verify_password [] "x@y.z" "pw" = false
    ∧ verify_password [uC3] "a@b.com" "WRONG" = false :=
  ⟨(verify_password_fail_closed [] "x@y.z" "pw").1 rfl,
   (verify_password_fail_closed [uC3] "a@b.com" "WRONG").2 uC3 rfl (by decide)⟩

def uC4 : UserR :=
  { blankUser with
    user_id := 1, token := some "OLD", token_exp := some 70 }

def uC4w : UserR :=
  { blankUser with
    user_id := 2, token := some "KT", token_exp := some 1000 }

/-- C4 (amended): a user holding a non-empty token with strictly more than 60
seconds of remaining lifetime gets the existing token back with the stored
row unmodified; and when a call at time t0 finds no stored token and issues a
fresh one, any second call made while more than 60 seconds remain (t1 + 60 <
t0 + L, i.e. strictly less than L − 60 seconds later) returns that same fresh
token and leaves the row unmodified. -/
theorem get_token_reuse :
    (∀ (u : UserR) (now L : Int) (fresh t : String) (e : Int),
      u.token = some t → t ≠ "" → u.token_exp = some e → now + 60 < e →
      get_token now fresh L u = Except.ok (t, u))
    ∧ (∀ (u : UserR) (t0 t1 L : Int) (f1 f2 : String),
      u.token = none → f1 ≠ "" → t1 + 60 < t0 + L →
      get_token t0 f1 L u = Except.ok (f1, issueFresh t0 L f1 u)
      ∧ get_token t1 f2 L (issueFresh t0 L f1 u)
        = Except.ok (f1, issueFresh t0 L f1 u)) := by
  constructor
  · intro u now L fresh t e ht hne he hlt
    simp [get_token, ht, hne, he, hlt]
  · intro u t0 t1 L f1 f2 ht hne hwin
    constructor
    · simp [get_token, ht]
    · simp [get_token, issueFresh, hne, hwin]

/-- C4 witness: a token with expiry 1000 is returned unchanged at time 0, and
a fresh token issued at time 0 with lifetime 86400 is returned again by a
call at time 100. -/
theorem get_token_reuse_witness :
    get_token 0 "FR" 86400 uC4w = Except.ok ("KT", uC4w)
    ∧ (get_token 0 "N1" 86400 blankUser
        = Except.ok ("N1", issueFresh 0 86400 "N1" blankUser)
      ∧ get_token 100 "N2" 86400 (issueFresh 0 86400 "N1" blankUser)
        = Except.ok ("N1", issueFresh 0 86400 "N1" blankUser)) :=
  ⟨get_token_reuse.1 uC4w 0 86400 "FR" "KT" 1000 rfl (by decide) rfl
      (by norm_num),
   get_token_reuse.2 blankUser 0 100 86400 "N1" "N2" rfl (by decide)
      (by norm_num)⟩

/-- C4 counterexample: the user already holds token "OLD" expiring at 70.  At
time 0 it is non-expired with 70 > 60 seconds remaining, so the first call
reuses it; a second call only 20 seconds later (well within L − 60 = 86340
seconds) finds only 50 seconds remaining and issues a different token — the
two calls do not return the identical string. -/
theorem get_token_reuse_cex :
    (0 : Int) + 60 < 70
    ∧ get_token 0 "F1" 86400 uC4 = Except.ok ("OLD", uC4)
    ∧ get_token 20 "F2" 86400 uC4
      = Except.ok ("F2", issueFresh 20 86400 "F2" uC4)
    ∧ "OLD" ≠ "F2"
    ∧ (20 : Int) - 0 ≤ 86400 - 60 :=
  ⟨by norm_num, rfl, rfl, by decide, by norm_num⟩

def uC5 : UserR :=
  { blankUser with
    user_id := 1, token := some "TK", token_exp := some 5000 }

/-- C5: revoke_token keeps the token string, sets token_exp to now − 61
(strictly in the past), and afterwards (at any time t2 ≥ t) resolving the
user's token — when the store lookup yields the revoked row — returns
not-found. -/
theorem revoke_then_resolve (u : UserR) (t t2 : Int) (s : String)
    (db : List UserR)
    (hf : db.find? (fun v => decide (v.token = some s))
      = some (revoke_token t u))
    (ht : t ≤ t2) :
    (revoke_token t u).token = u.token
    ∧ (revoke_token t u).token_exp = some (t - 61)
    ∧ t - 61 < t
    ∧ check_token t2 s db = Except.ok none := by
  refine ⟨rfl, rfl, by omega, ?_⟩
  have hlt : t - 61 < t2 := by omega
  simp [check_token, hf, revoke_token, hlt]

/-- C5 witness: revoking at time 1000 and resolving at time 1000. -/
theorem revoke_then_resolve_witness :
    (revoke_token 1000 uC5).token = uC5.token
    ∧ (revoke_token 1000 uC5).token_exp = some (1000 - 61)
    ∧ (1000 : Int) - 61 < 1000
    ∧ check_token 1000 "TK" [revoke_token 1000 uC5] = Except.ok none :=
  revoke_then_resolve uC5 1000 1000 "TK" [revoke_token 1000 uC5] rfl
    (le_refl 1000)

def uC9 : UserR :=
  { blankUser with
    user_id := 1, token := some "T", token_exp := none }

/-- C9: under the invariant that a non-null token implies a non-null
token_exp, neither get_token nor check_token can reach their TypeError
branch; and without that invariant both do reach it (a row with token "T"
and null token_exp). -/
theorem token_null_safety :
    (∀ (u : UserR) (now : Int) (fresh : String) (L : Int),
      (u.token ≠ none → u.token_exp ≠ none) →
      get_token now fresh L u ≠ Except.error Err.typeError)
    ∧ (∀ (db : List UserR) (now : Int) (tok : String),
      (∀ u ∈ db, u.token ≠ none → u.token_exp ≠ none) →
      check_token now tok db ≠ Except.error Err.typeError)
    ∧ get_token 0 "F" 86400 uC9 = Except.error Err.typeError
    ∧ check_token 0 "T" [uC9] = Except.error Err.typeError := by
  refine ⟨?_, ?_, rfl, rfl⟩
  · intro u now fresh L h
    cases htok : u.token with
    | none => simp [get_token, htok]
    | some t =>
      have hexp : u.token_exp ≠ none := h (by simp [htok])
      cases hexp2 : u.token_exp with
      | none => exact absurd hexp2 hexp
      | some e =>
        by_cases hte : t = ""
        · simp [get_token, htok, hte]
        · simp [get_token, htok, hte, hexp2]
          split <;> simp
  · intro db now tok h
    cases hf : db.find? (fun u => decide (u.token = some tok)) with
    | none => simp [check_token, hf]
    | some u =>
      have hmem : u ∈ db := List.mem_of_find?_eq_some hf
      have hpred := List.find?_some hf
      have htok : u.token = some tok := by simpa using hpred
      have hexp : u.token_exp ≠ none := h u hmem (by simp [htok])
      cases hexp2 : u.token_exp with
      | none => exact absurd hexp2 hexp
      | some e =>
        simp [check_token, hf, hexp2]
        split <;> simp

/-- C9 witness: a user with no token at all satisfies the invariant, and
get_token on it does not raise. -/
theorem token_null_safety_witness :
    get_token 0 "W" 86400 blankUser ≠ Except.error Err.typeError :=
  token_null_safety.1 blankUser 0 "W" 86400 (fun h => absurd rfl h)

def bodyC6 : List (String × Val) :=
  [("title", Val.s "T"), ("author", Val.s "X"), ("pages", Val.i 10),
   ("summary", Val.s "S"), ("image", Val.s "img.png")]

/-- C6 (code bug): the scenario body passes post_book's key validation, yet
the handler errors — book.from_dict() is called without the parsed body (and
Book defines no from_dict in src at all) — so no Book row holding the five
submitted values is ever created. -/
theorem post_book_drops_fields :
    bookRequiredKeys.all (fun k => (jsonGet bodyC6 k).isSome) = true
    ∧ post_book [] bodyC6 = ([], Except.error Err.typeError) :=
  ⟨rfl, rfl⟩

def uC7 : UserR := { blankUser with user_id := 1 }

def bodyC7 : List (String × Val) :=
  [("first_name", Val.s "A"), ("last_name", Val.s "B"),
   ("password", Val.s "pw"), ("icon", Val.s "i.png"),
   ("created_on", Val.i 0), ("is_admin", Val.b true)]

/-- C7 (amended): put_user performs no presence validation — a body missing
the email key makes it fail with an uncaught KeyError "email" (from
User.from_dict), which is not the 404 bad-request signal the validating
handlers use; register_user and post_book, by contrast, do check their
required keys and abort with 404 when one is absent. -/
theorem put_user_missing_email (db : List UserR) (i : Int)
    (body : List (String × Val)) (u : UserR)
    (hu : db.find? (fun v => decide (v.user_id = i)) = some u)
    (h1 : (jsonGet body "first_name").isSome = true)
    (h2 : (jsonGet body "last_name").isSome = true)
    (h3 : jsonGet body "email" = none) :
    put_user db i body = (db, Except.error (Err.keyError "email"))
    ∧ Err.keyError "email" ≠ Err.http 404
    ∧ (∀ (db2 : List UserR) (body2 : List (String × Val)),
        jsonGet body2 "email" = none →
        register_user db2 body2 = (db2, Except.error (Err.http 404)))
    ∧ (∀ (db3 : List Book) (body3 : List (String × Val)),
        jsonGet body3 "title" = none →
        post_book db3 body3 = (db3, Except.error (Err.http 404))) := by
  obtain ⟨v1, hv1⟩ := Option.isSome_iff_exists.mp h1
  obtain ⟨v2, hv2⟩ := Option.isSome_iff_exists.mp h2
  refine ⟨?_, by simp, ?_, ?_⟩
  · simp [put_user, hu, UserR.from_dict, hv1, hv2, h3]
  · intro db2 body2 h
    simp [register_user, userRequiredKeys, h]
  · intro db3 body3 h
    simp [post_book, bookRequiredKeys, h]

/-- C7 witness: the scenario body (all user fields except email) against a
store holding user id 1. -/
theorem put_user_missing_email_witness :
    put_user [uC7] 1 bodyC7 = ([uC7], Except.error (Err.keyError "email")) :=
  (put_user_missing_email [uC7] 1 bodyC7 uC7 rfl rfl rfl rfl).1

/-- C7 counterexample: PUT /user/1 with the email key absent is rejected via
KeyError "email", not via the 404 bad-request signal the claim describes —
put_user validated nothing. -/
theorem put_user_no_validation_cex :
    jsonGet bodyC7 "email" = none
    ∧ put_user [uC7] 1 bodyC7 = ([uC7], Except.error (Err.keyError "email"))
    ∧ (Except.error (Err.keyError "email") : Except Err String)
      ≠ Except.error (Err.http 404) :=
  ⟨rfl, rfl, by simp⟩

def uC8 : UserR :=
  { blankUser with
    user_id := 1, email := "a@b.com", password := hash_password "pw",
    is_admin := true }

/-- C8 (code bug evaluated): a valid login (token issuance succeeds) still
ends in AttributeError "id", because User.to_dict reads self.id while the
model only defines user_id — the 200 body with token and profile is never
produced. -/
theorem get_login_crashes :
    get_login 0 "TOK" uC8 = Except.error (Err.attributeError "id")
    ∧ UserR.to_dict uC8 = Except.error (Err.attributeError "id") :=
  ⟨rfl, rfl⟩

def bC10 : Book :=
  { book_id := 1, title := "T0", author := "A0", pages := 1,
    summary := "S0", image := "I0" }

def bC10upd : Book :=
  { book_id := 1, title := "T1", author := "A1", pages := 2,
    summary := "S1", image := "I1" }

def bodyC10 : List (String × Val) :=
  [("title", Val.s "T1"), ("author", Val.s "A1"), ("pages", Val.i 2),
   ("summary", Val.s "S1"), ("image", Val.s "I1")]

/-- C10 (amended): when the id exists and the body parses, put_book updates
and saves the row, but the outcome is an AttributeError raised while
formatting the success message (book.id — the column is book_id), so the
handler never yields the 200 success response; the not-found branch is the
only one producing a response (404). -/
theorem put_book_success_path (db : List Book) (i : Int)
    (body : List (String × Val)) (b b2 : Book)
    (hf : db.find? (fun x => decide (x.book_id = i)) = some b)
    (hd : Book.from_dict b body = Except.ok b2) :
    put_book db i body
      = (db.map (fun x => if x.book_id = i then b2 else x),
         Except.error (Err.attributeError "id"))
    ∧ (∀ (db2 : List Book) (i2 : Int) (body2 : List (String × Val)),
        db2.find? (fun x => decide (x.book_id = i2)) = none →
        put_book db2 i2 body2 = (db2, Except.error (Err.http 404)))
    ∧ (∀ msg, (put_book db i body).snd ≠ Except.ok (some msg)) := by
  refine ⟨by simp [put_book, hf, hd], ?_, ?_⟩
  · intro db2 i2 body2 h
    simp [put_book, h]
  · intro msg
    simp [put_book, hf, hd]

/-- C10 witness: updating book 1 with a full body saves the new fields and
ends in the AttributeError, not a 200. -/
theorem put_book_success_path_witness :
    put_book [bC10] 1 bodyC10
      = ([bC10].map (fun x => if x.book_id = 1 then bC10upd else x),
         Except.error (Err.attributeError "id")) :=
  (put_book_success_path [bC10] 1 bodyC10 bC10 bC10upd rfl rfl).1

/-- C10 counterexample: on an existing id with a full body the handler's
outcome is the AttributeError — not the claim's "no response value"
(a plain None return from the view function). -/
theorem put_book_no_response_cex :
    (put_book [bC10] 1 bodyC10).snd = Except.error (Err.attributeError "id")
    ∧ (put_book [bC10] 1 bodyC10).snd ≠ Except.ok none :=
  ⟨rfl, fun h => Except.noConfusion h⟩

end App
